import Mathlib

set_option maxRecDepth 4000

namespace AxiMmapFw

/-!
Shallow embedding of the AXI memory-map test firmware: the routines
test_ram and test_dma from firmware/axi_mmap.c, and the console pieces
(readstr, get_token, reboot_cmd, console_service) and main from
firmware/main.c.

Memory is modelled at 32-bit word granularity. Every memory access in the
source touches whole aligned words: the two writes of test_ram are word
stores, the seeds of test_dma are word stores, and the poison step
(memset with byte 0xFF over uint32_t arrays) makes every word equal to
0xFFFFFFFF. Byte-for-byte memcmp equality of a 16-byte sub-buffer is
therefore equivalent to equality of its list of four words, so the
memcmp checks of test_dma are modelled as word-list equality.
-/

/-- One DMA buffer pair, the struct "dma_data" of test_dma:
volatile uint32_t src[4], dst[4]. Each field is a list of four
32-bit words. -/
structure dma_data where
  src : List Nat
  dst : List Nat
deriving DecidableEq

/-- The memory that test_dma manipulates: the cdma pair placed at
AXI_DP_RAM_1A_BASE and the dma pair placed at AXI_DP_RAM_2A_BASE.
The two regions are disjoint, so they are separate fields. -/
structure Mem where
  cdma : dma_data
  dma : dma_data
deriving DecidableEq

/-- memset(p, 0xFF, sizeof(dma_data)): every byte becomes 0xFF, hence every
32-bit word becomes 0xFFFFFFFF, regardless of the previous contents. -/
def memsetFF (_p : dma_data) : dma_data :=
  { src := List.replicate 4 0xFFFFFFFF, dst := List.replicate 4 0xFFFFFFFF }

/-- Lines 53-56 of axi_mmap.c: poison both buffer pairs with 0xFF, then seed
cdma->src[1] = 0x12345678 and dma->src[2] = 0xAABBCCDD. -/
def poisonSeed (m : Mem) : Mem :=
  let m1 : Mem := { cdma := memsetFF m.cdma, dma := memsetFF m.dma }
  let m2 : Mem := { m1 with cdma := { m1.cdma with src := m1.cdma.src.set 1 0x12345678 } }
  { m2 with dma := { m2.dma with src := m2.dma.src.set 2 0xAABBCCDD } }

/-- The pre-condition check of test_dma, lines 59-60:
errors += (memcmp(dma->src, cdma->dst, 16) == 0);
errors += (memcmp(cdma->src, dma->dst, 16) == 0). -/
def preErrors (m : Mem) : Nat :=
  (if m.dma.src = m.cdma.dst then 1 else 0) + (if m.cdma.src = m.dma.dst then 1 else 0)

/-- The post-condition check of test_dma, lines 91-92:
errors += (memcmp(dma->src, cdma->dst, 16) != 0);
errors += (memcmp(cdma->src, dma->dst, 16) != 0). -/
def postErrors (m : Mem) : Nat :=
  (if m.dma.src ≠ m.cdma.dst then 1 else 0) + (if m.cdma.src ≠ m.dma.dst then 1 else 0)

/-- The observable actions test_dma performs, in program order: the
pre-condition check, the four dump_buf calls before and after, the
register writes to the two engines (through the generated CSR accessors
axi_cdma_*_write / axi_dma_*_write), the post-condition check, and the
final error report. The source issues no register read, wait, or poll,
so the event type has no such constructor. -/
inductive Ev where
  | preCheck
  | dumpBuf
  | cdmaReadAddr (a : Nat)
  | cdmaWriteAddr (a : Nat)
  | cdmaLen (n : Nat)
  | cdmaValid (v : Nat)
  | dmaReadAddr (a : Nat)
  | dmaWriteAddr (a : Nat)
  | dmaLen (n : Nat)
  | dmaValid (v : Nat)
  | postCheck
  | reportErrors (n : Nat)
deriving DecidableEq

/-- The outcome of one test_dma run: final error count, final memory,
and the trace of observable actions. -/
structure DmaRun where
  errors : Nat
  mem : Mem
  trace : List Ev
deriving DecidableEq

/-- test_dma, axi_mmap.c lines 41-96, parameterised by the two base
addresses (the symbolic constants AXI_DP_RAM_1A_BASE and
AXI_DP_RAM_2A_BASE from the generated memory map, with src at offset 0
and dst at offset 16 of each region) and by the hardware response to each
engine's valid strobe (cdmaXfer fires at the CDMA strobe, dmaXfer at the
DMA strobe; the firmware itself performs no copy). sizeof(cdma->dst) =
sizeof(dma->dst) = 16 is the programmed length. -/
def test_dma (cdmaBase dmaBase : Nat) (cdmaXfer dmaXfer : Mem → Mem) (m0 : Mem) : DmaRun :=
  let m1 := poisonSeed m0
  let e1 := preErrors m1
  let m2 := cdmaXfer m1
  let m3 := dmaXfer m2
  let e2 := e1 + postErrors m3
  { errors := e2,
    mem := m3,
    trace :=
      [Ev.preCheck,
       Ev.dumpBuf, Ev.dumpBuf, Ev.dumpBuf, Ev.dumpBuf,
       Ev.cdmaReadAddr cdmaBase, Ev.cdmaWriteAddr (cdmaBase + 16), Ev.cdmaLen 16,
       Ev.cdmaValid 1, Ev.cdmaValid 0,
       Ev.dmaReadAddr dmaBase, Ev.dmaWriteAddr (dmaBase + 16), Ev.dmaLen 16,
       Ev.dmaValid 1, Ev.dmaValid 0,
       Ev.dumpBuf, Ev.dumpBuf, Ev.dumpBuf, Ev.dumpBuf,
       Ev.postCheck, Ev.reportErrors e2] }

/-- Synchronous own-copy hardware model for the CDMA engine: the strobe
copies the programmed 16 bytes from its read address (cdma->src) to its
write address (cdma->dst). -/
def cdmaCopyOwn (m : Mem) : Mem := { m with cdma := { m.cdma with dst := m.cdma.src } }

/-- Synchronous own-copy hardware model for the DMA engine. -/
def dmaCopyOwn (m : Mem) : Mem := { m with dma := { m.dma with dst := m.dma.src } }

/-- An arbitrary initial memory (its contents are irrelevant: the poison
step overwrites everything). -/
def anyMem : Mem :=
  { cdma := { src := List.replicate 4 0, dst := List.replicate 4 0 },
    dma := { src := List.replicate 4 0, dst := List.replicate 4 0 } }

/-- The memory state right after poison and seed, before any trigger. -/
def memAfterSeed : Mem := poisonSeed anyMem

/-- The memory state after both engines performed a correct own-copy
transfer from the seeded state: each dst equals its own src. -/
def memOwnCopied : Mem := dmaCopyOwn (cdmaCopyOwn memAfterSeed)

/-- A volatile RAM window as seen through the casted pointer of test_ram:
a device gives the behaviour of word writes and word reads over a state
mapping word index to stored value. A faulty device may return on read
something other than what was written. -/
structure RamDev where
  writeW : (Nat → Nat) → Nat → Nat → (Nat → Nat)
  readW : (Nat → Nat) → Nat → Nat

/-- Functional memory: a write stores the value at the index, a read
returns the stored value. -/
def stdRam : RamDev :=
  { writeW := fun s a v i => if i = a then v else s i,
    readW := fun s a => s a }

/-- The memory state after the two sentinel writes of test_ram:
axi_ram[0] = 0x5aa55aa5; axi_ram[1] = 0x12345678. -/
def ramState (d : RamDev) (s0 : Nat → Nat) : Nat → Nat :=
  d.writeW (d.writeW s0 0 0x5aa55aa5) 1 0x12345678

/-- test_ram, axi_mmap.c lines 13-30: write the two sentinel words, read
both back, count mismatches. Returns the error count and the final
memory state. The routine always runs to completion; the count is its
only outcome besides console text. -/
def test_ram (d : RamDev) (s0 : Nat → Nat) : Nat × (Nat → Nat) :=
  let s2 := ramState d s0
  ((if d.readW s2 0 ≠ 0x5aa55aa5 then 1 else 0) +
   (if d.readW s2 1 ≠ 0x12345678 then 1 else 0), s2)

/-- The seven named RAM regions main tests, as the symbolic base-address
constants of the generated memory map. -/
inductive RegionBase where
  | axiRam
  | axiDpRamA
  | axiDpRamB
  | axiRamReg
  | axiRamFifo
  | axiRamXbar
  | axiRamInt
deriving DecidableEq

/-- Which test routine an invocation in main calls. -/
inductive TestKind where
  | ramTest
  | dmaTest
deriving DecidableEq

/-- One test invocation performed by main: a test_ram call on a region,
or a test_dma call. -/
inductive TestCall where
  | callTestRam (base : RegionBase)
  | callTestDma
deriving DecidableEq

/-- The sequence of test invocations main performs, main.c lines 129-136:
seven test_ram calls, one per named region, in program order. The body of
main contains no call to test_dma. -/
def mainTests : List TestCall :=
  [TestCall.callTestRam RegionBase.axiRam,
   TestCall.callTestRam RegionBase.axiDpRamA,
   TestCall.callTestRam RegionBase.axiDpRamB,
   TestCall.callTestRam RegionBase.axiRamReg,
   TestCall.callTestRam RegionBase.axiRamFifo,
   TestCall.callTestRam RegionBase.axiRamXbar,
   TestCall.callTestRam RegionBase.axiRamInt]

/-- The kind of a test invocation. -/
def testKind : TestCall → TestKind
  | TestCall.callTestRam _ => TestKind.ramTest
  | TestCall.callTestDma => TestKind.dmaTest

/-- readstr, main.c lines 21-57, processing one received byte: buf models
the first ptr characters of the static buffer s[64] (the cursor index ptr
is buf.length). Bytes 0x7f/0x08 erase the last character when there is
one; 0x07 is ignored; carriage return (13) or newline (10) terminates the
line, returning the stored string and resetting the cursor; any other
byte is appended unless ptr is already at sizeof(s) - 1 = 63, in which
case it is discarded. -/
def readstr_step (buf : List Char) (c : Char) : List Char × Option (List Char) :=
  if c = Char.ofNat 0x7f ∨ c = Char.ofNat 0x08 then
    if 0 < buf.length then (buf.dropLast, none) else (buf, none)
  else if c = Char.ofNat 0x07 then (buf, none)
  else if c = Char.ofNat 13 ∨ c = Char.ofNat 10 then ([], some buf)
  else if 63 ≤ buf.length then (buf, none)
  else (buf ++ [c], none)

/-- The line-editor state after feeding a whole byte sequence through
readstr_step, starting from the empty buffer. -/
def readstr_run (input : List Char) : List Char :=
  input.foldl (fun buf c => (readstr_step buf c).1) []

/-- get_token, main.c lines 59-73: split off the first space-separated
token; when the string holds no space, the whole string is the token and
the rest is empty. -/
def get_token : List Char → List Char × List Char
  | [] => ([], [])
  | c :: cs =>
    if c = ' ' then ([], cs)
    else ((c :: (get_token cs).1), (get_token cs).2)

/-- The observable actions of the console dispatcher: printing the help
text, writing a value to the system reset control register
(ctrl_reset_write), and printing the prompt. -/
inductive ConEv where
  | helpShown
  | resetWrite (v : Nat)
  | promptShown
deriving DecidableEq

/-- The token "help" as a character list. -/
def helpTok : List Char := ['h', 'e', 'l', 'p']

/-- The token "reboot" as a character list. -/
def rebootTok : List Char := ['r', 'e', 'b', 'o', 'o', 't']

/-- reboot_cmd, main.c lines 96-99: a single write of 1 to the system
reset control register, ctrl_reset_write(1). -/
def reboot_cmd : List ConEv := [ConEv.resetWrite 1]

/-- Dispatch of one completed line by console_service, main.c lines
105-118: compare the first token against "help" and "reboot", perform the
matching action if any, then print the prompt. Unknown tokens perform no
command action. -/
def console_line (line : List Char) : List ConEv :=
  (if (get_token line).1 = helpTok then [ConEv.helpShown]
   else if (get_token line).1 = rebootTok then reboot_cmd
   else []) ++ [ConEv.promptShown]

/-- One console_service call with one pending input byte: feed it to the
line editor; when a line completes, dispatch it. -/
def console_service_step (buf : List Char) (c : Char) : List Char × List ConEv :=
  match readstr_step buf c with
  | (b, none) => (b, [])
  | (b, some line) => (b, console_line line)

/-- The console loop of main driven over a byte sequence: the events
emitted while console_service consumes the input byte by byte, starting
from an empty line-editor buffer. -/
def console_run (input : List Char) : List ConEv :=
  (input.foldl
    (fun acc c =>
      ((console_service_step acc.1 c).1, acc.2 ++ (console_service_step acc.1 c).2))
    (([] : List Char), ([] : List ConEv))).2

/-- Recognises a reset-register write event. -/
def isResetWrite : ConEv → Bool
  | ConEv.resetWrite _ => true
  | _ => false

/-- The console input "reboot" followed by newline. -/
def rebootLine : List Char := rebootTok ++ [Char.ofNat 10]

/-- The console input "help" followed by newline. -/
def helpLine : List Char := helpTok ++ [Char.ofNat 10]

/-- An unknown-command line. -/
def fooLine : List Char := ['f', 'o', 'o']

/-- Helper: one readstr_step keeps the cursor index (buffer length) at
most 63. -/
theorem readstr_step_length_le (buf : List Char) (c : Char) (h : buf.length ≤ 63) :
    (readstr_step buf c).1.length ≤ 63 := by
  unfold readstr_step
  repeat' split
  all_goals simp_all [List.length_dropLast]
  all_goals omega

/-- Helper: folding readstr_step over any input preserves the bound. -/
theorem readstr_foldl_le (input : List Char) :
    ∀ buf : List Char, buf.length ≤ 63 →
      (input.foldl (fun b c => (readstr_step b c).1) buf).length ≤ 63 := by
  induction input with
  | nil => intro buf h; simpa using h
  | cons c cs ih => intro buf h; exact ih _ (readstr_step_length_le buf c h)

/-- Claim C1 (refuted by the code): the claim states that each of the two
post-transfer comparisons adds 1 to the error count iff that engine's own
dst differs from that engine's own src. The source (axi_mmap.c lines
91-92) instead compares dma->src with cdma->dst and cdma->src with
dma->dst. In the memory state where each engine's dst equals its own src
(the state a correct own-copy transfer produces from the seeded state)
the claim predicts 0 added errors, but the post-condition check adds 2. -/
theorem c1_postcheck_compares_cross_buffers :
    memOwnCopied.cdma.dst = memOwnCopied.cdma.src ∧
    memOwnCopied.dma.dst = memOwnCopied.dma.src ∧
    postErrors memOwnCopied = 2 := by decide

/-- Claim C2, counterexample: the sequence of test invocations performed
by main is not seven test_ram calls followed by one test_dma call —
main never calls test_dma. -/
theorem c2_counterexample_no_dma_call :
    mainTests.map testKind ≠ List.replicate 7 TestKind.ramTest ++ [TestKind.dmaTest] := by
  decide

/-- Claim C2 (amended): on startup main runs the Memory Pattern Tester
once for each of the seven named RAM regions, in order, and performs no
test_dma invocation before entering the console loop. -/
theorem c2_main_runs_seven_ram_tests_only :
    mainTests.map testKind = List.replicate 7 TestKind.ramTest ∧
    mainTests.length = 7 ∧
    TestCall.callTestDma ∉ mainTests := by decide

/-- Claim C3 (refuted by the code): under the synchronous own-copy DMA
model, after test_dma seeds and triggers both engines, engine A's dst
word 1 reads 0x12345678, engine B's dst word 2 reads 0xAABBCCDD, and
every dst word equals the corresponding src word — but the reported
error count is 2, not 0, because the post-condition check compares the
engines' buffers crosswise. -/
theorem c3_end_to_end_reports_two_errors :
    (test_dma 0 64 cdmaCopyOwn dmaCopyOwn anyMem).mem.cdma.dst.get? 1 = some 0x12345678 ∧
    (test_dma 0 64 cdmaCopyOwn dmaCopyOwn anyMem).mem.dma.dst.get? 2 = some 0xAABBCCDD ∧
    (test_dma 0 64 cdmaCopyOwn dmaCopyOwn anyMem).mem.cdma.dst =
      (test_dma 0 64 cdmaCopyOwn dmaCopyOwn anyMem).mem.cdma.src ∧
    (test_dma 0 64 cdmaCopyOwn dmaCopyOwn anyMem).mem.dma.dst =
      (test_dma 0 64 cdmaCopyOwn dmaCopyOwn anyMem).mem.dma.src ∧
    (test_dma 0 64 cdmaCopyOwn dmaCopyOwn anyMem).errors = 2 := by decide

/-- Claim C4: for any RAM device behaviour, test_ram's error count equals
the number of the two read-backs that differ from the written sentinel,
is at most 2, is 0 exactly when both read-backs return the written
values, and the routine always completes with both words written (no
mismatch aborts); on functional memory the count is 0. -/
theorem c4_test_ram_error_count :
    (∀ (d : RamDev) (s0 : Nat → Nat),
      (test_ram d s0).1 =
        (List.filter (fun p => decide (p.1 ≠ p.2))
          [(d.readW (ramState d s0) 0, 0x5aa55aa5),
           (d.readW (ramState d s0) 1, 0x12345678)]).length ∧
      (test_ram d s0).1 ≤ 2 ∧
      ((test_ram d s0).1 = 0 ↔
        d.readW (ramState d s0) 0 = 0x5aa55aa5 ∧ d.readW (ramState d s0) 1 = 0x12345678) ∧
      (test_ram d s0).2 = ramState d s0) ∧
    (∀ s0 : Nat → Nat, (test_ram stdRam s0).1 = 0) := by
  constructor
  · intro d s0
    by_cases h0 : d.readW (ramState d s0) 0 = 0x5aa55aa5 <;>
      by_cases h1 : d.readW (ramState d s0) 1 = 0x12345678 <;>
        simp [test_ram, h0, h1]
  · intro s0
    simp [test_ram, ramState, stdRam]

/-- Claim C5: after the poison and seed steps and before any trigger,
every 32-bit word of both buffer pairs is 0xFFFFFFFF except exactly two:
the CDMA engine's src word 1, which is 0x12345678, and the DMA engine's
src word 2, which is 0xAABBCCDD — whatever memory held before. -/
theorem c5_poison_then_seed_state (m0 : Mem) :
    poisonSeed m0 =
      { cdma := { src := [0xFFFFFFFF, 0x12345678, 0xFFFFFFFF, 0xFFFFFFFF],
                  dst := [0xFFFFFFFF, 0xFFFFFFFF, 0xFFFFFFFF, 0xFFFFFFFF] },
        dma := { src := [0xFFFFFFFF, 0xFFFFFFFF, 0xAABBCCDD, 0xFFFFFFFF],
                 dst := [0xFFFFFFFF, 0xFFFFFFFF, 0xFFFFFFFF, 0xFFFFFFFF] } } := rfl

/-- Claim C6: the pre-condition check adds 1 per pair for which engine A's
dst equals engine B's src (and symmetrically engine B's dst equals engine
A's src); on the poison-then-seed state it contributes 0; and whatever
the hardware does, the run never aborts — the triggers, the
post-condition check and the final report all still appear in the trace. -/
theorem c6_precheck_additive_no_abort :
    (∀ m : Mem, preErrors m =
      (if m.cdma.dst = m.dma.src then 1 else 0) +
      (if m.dma.dst = m.cdma.src then 1 else 0)) ∧
    (∀ m0 : Mem, preErrors (poisonSeed m0) = 0) ∧
    (∀ (b1 b2 : Nat) (f g : Mem → Mem) (m0 : Mem),
      Ev.cdmaValid 1 ∈ (test_dma b1 b2 f g m0).trace ∧
      Ev.dmaValid 1 ∈ (test_dma b1 b2 f g m0).trace ∧
      Ev.postCheck ∈ (test_dma b1 b2 f g m0).trace ∧
      Ev.reportErrors (test_dma b1 b2 f g m0).errors ∈ (test_dma b1 b2 f g m0).trace) := by
  refine ⟨?_, ?_, ?_⟩
  · intro m
    unfold preErrors
    congr 1
    · exact if_congr eq_comm rfl rfl
    · exact if_congr eq_comm rfl rfl
  · intro m0
    rfl
  · intro b1 b2 f g m0
    refine ⟨?_, ?_, ?_, ?_⟩ <;> simp [test_dma]

/-- Claim C7: test_dma programs each engine with exactly the register
writes read_addr = src base, write_addr = dst base, len = 16, valid = 1,
valid = 0, in that order; the CDMA engine is programmed and triggered
entirely before the DMA engine; and between deasserting valid and the
verification comparison there is no status read, wait, or poll — the
whole trace is exactly this list. -/
theorem c7_register_program_order (b1 b2 : Nat) (f g : Mem → Mem) (m0 : Mem) :
    (test_dma b1 b2 f g m0).trace =
      [Ev.preCheck,
       Ev.dumpBuf, Ev.dumpBuf, Ev.dumpBuf, Ev.dumpBuf,
       Ev.cdmaReadAddr b1, Ev.cdmaWriteAddr (b1 + 16), Ev.cdmaLen 16,
       Ev.cdmaValid 1, Ev.cdmaValid 0,
       Ev.dmaReadAddr b2, Ev.dmaWriteAddr (b2 + 16), Ev.dmaLen 16,
       Ev.dmaValid 1, Ev.dmaValid 0,
       Ev.dumpBuf, Ev.dumpBuf, Ev.dumpBuf, Ev.dumpBuf,
       Ev.postCheck, Ev.reportErrors (test_dma b1 b2 f g m0).errors] := rfl

/-- Claim C8: submitting the console line "reboot" followed by newline
causes exactly one write, of the value 1, to the system reset control
register; the line "help" causes no reset-register write; and a line
whose first token is neither "help" nor "reboot" causes neither command
action — only the prompt. -/
theorem c8_console_commands :
    (console_run rebootLine).filter isResetWrite = [ConEv.resetWrite 1] ∧
    (console_run helpLine).filter isResetWrite = [] ∧
    ∀ line : List Char, (get_token line).1 ≠ helpTok → (get_token line).1 ≠ rebootTok →
      console_line line = [ConEv.promptShown] := by
  refine ⟨by decide, by decide, ?_⟩
  intro line h1 h2
  simp [console_line, h1, h2]

/-- Witness for C8: the unknown line "foo" produces only the prompt. -/
theorem c8_console_commands_witness :
    console_line fooLine = [ConEv.promptShown] :=
  c8_console_commands.2.2 fooLine (by decide) (by decide)

/-- Claim C9: the pre- and post-condition checks compare the same two
buffer pairs with opposite polarity, so each pair contributes exactly one
error across the two checks in any fixed memory state; hence whenever the
memory at the post-check equals the memory at the pre-check (for example
when the triggers have no memory effect), test_dma reports exactly 2. -/
theorem c9_pre_post_opposite_polarity :
    (∀ m : Mem,
      (if m.dma.src = m.cdma.dst then 1 else 0) +
        (if m.dma.src ≠ m.cdma.dst then 1 else 0) = 1 ∧
      (if m.cdma.src = m.dma.dst then 1 else 0) +
        (if m.cdma.src ≠ m.dma.dst then 1 else 0) = 1 ∧
      preErrors m + postErrors m = 2) ∧
    ∀ (b1 b2 : Nat) (f g : Mem → Mem) (m0 : Mem),
      g (f (poisonSeed m0)) = poisonSeed m0 → (test_dma b1 b2 f g m0).errors = 2 := by
  have hpair : ∀ a b : List Nat, (if a = b then 1 else 0) + (if a ≠ b then 1 else 0) = 1 := by
    intro a b
    by_cases h : a = b <;> simp [h]
  have hsum : ∀ m : Mem, preErrors m + postErrors m = 2 := by
    intro m
    unfold preErrors postErrors
    have h1 := hpair m.dma.src m.cdma.dst
    have h2 := hpair m.cdma.src m.dma.dst
    omega
  refine ⟨fun m => ⟨hpair _ _, hpair _ _, hsum m⟩, ?_⟩
  intro b1 b2 f g m0 h
  show preErrors (poisonSeed m0) + postErrors (g (f (poisonSeed m0))) = 2
  rw [h]
  exact hsum (poisonSeed m0)

/-- Witness for C9: with triggers that leave memory untouched, test_dma
reports exactly 2 errors. -/
theorem c9_pre_post_opposite_polarity_witness :
    (test_dma 0 64 (fun m => m) (fun m => m) anyMem).errors = 2 :=
  c9_pre_post_opposite_polarity.2 0 64 (fun m => m) (fun m => m) anyMem rfl

/-- Claim C10: the line editor's cursor index (the stored-prefix length)
stays at most 63 across every input sequence; a non-control byte arriving
with the buffer full is discarded; erasing on an empty buffer leaves it
empty; and carriage return or newline returns the stored line and resets
the buffer. -/
theorem c10_line_editor_bounds :
    (∀ input : List Char, (readstr_run input).length ≤ 63) ∧
    (∀ (buf : List Char) (c : Char), 63 ≤ buf.length →
      c ≠ Char.ofNat 0x7f → c ≠ Char.ofNat 0x08 → c ≠ Char.ofNat 0x07 →
      c ≠ Char.ofNat 13 → c ≠ Char.ofNat 10 →
      readstr_step buf c = (buf, none)) ∧
    (∀ c : Char, (c = Char.ofNat 0x7f ∨ c = Char.ofNat 0x08) →
      readstr_step [] c = ([], none)) ∧
    (∀ (buf : List Char) (c : Char), (c = Char.ofNat 13 ∨ c = Char.ofNat 10) →
      readstr_step buf c = ([], some buf)) := by
  refine ⟨?_, ?_, ?_, ?_⟩
  · intro input
    exact readstr_foldl_le input [] (by simp)
  · intro buf c hlen h1 h2 h3 h4 h5
    simp [readstr_step, h1, h2, h3, h4, h5, hlen]
  · intro c hc
    rcases hc with h | h <;> simp [readstr_step, h]
  · intro buf c hc
    rcases hc with h | h <;> simp [readstr_step, h]

/-- Witness for C10: concrete instances — a long input stays bounded, a
full buffer discards, erase on empty is a no-op, newline returns the
line. -/
theorem c10_line_editor_bounds_witness :
    (readstr_run (List.replicate 200 'a')).length ≤ 63 ∧
    readstr_step (List.replicate 63 'a') 'b' = (List.replicate 63 'a', none) ∧
    readstr_step [] (Char.ofNat 0x08) = ([], none) ∧
    readstr_step (['h', 'i']) (Char.ofNat 10) = ([], some (['h', 'i'])) :=
  ⟨c10_line_editor_bounds.1 (List.replicate 200 'a'),
   c10_line_editor_bounds.2.1 (List.replicate 63 'a') 'b' (by decide) (by decide)
     (by decide) (by decide) (by decide) (by decide),
   c10_line_editor_bounds.2.2.1 (Char.ofNat 0x08) (Or.inr rfl),
   c10_line_editor_bounds.2.2.2 (['h', 'i']) (Char.ofNat 10) (Or.inr rfl)⟩

end AxiMmapFw
